import Mathlib

/-!
Verification of the per-connection resource pool and paginated query-execution
layer of the squill backend (PostgreSQL pool manager, Snowflake connection
manager, pagination/count protocol, identifier quoting).

The external database is modelled abstractly: a query is identified by the
list of rows it would return in full, `SELECT COUNT(*)` over it returns the
length of that list, and `LIMIT b OFFSET o` returns the corresponding window.
Statements actually sent to the backend are collected in a trace so that
round-trip claims (was the count query issued?) are observable.
-/

set_option maxRecDepth 8192

namespace Squill

/-! ## Abstract SQL backend -/

/-- Result of `SELECT COUNT(*)` over a result set modelled as a list of rows. -/
def sqlCount (db : List α) : Nat := db.length

/-- Result of `SELECT * FROM (...) LIMIT limit OFFSET offset` over a result
set modelled as a list of rows. -/
def sqlLimitOffset (db : List α) (limit offset : Nat) : List α :=
  (db.drop offset).take limit

/-- A statement sent to the backend during paginated execution: either the
separate COUNT round trip or the windowed page query.  The constructor carries
the exact SQL text the code builds. -/
inductive SqlStmt where
  | count (sql : String)
  | page (sql : String)
deriving DecidableEq, Repr

/-! ## Snowflake flavor: `SnowflakeConnectionManager.execute_query_paginated` -/

/-- The count query string built by `execute_query_paginated` in
`snowflake_pool.py`. -/
def snowflakeCountQuery (query : String) : String :=
  "SELECT COUNT(*) FROM (" ++ query ++ ") AS subq"

/-- The windowed query f-string built by `execute_query_paginated` in
`snowflake_pool.py` (including the triple-quoted-string whitespace). -/
def snowflakePaginatedQuery (query : String) (batch_size offset : Nat) : String :=
  "\n                    SELECT * FROM (" ++ query ++ ") AS subq\n                    LIMIT "
    ++ toString batch_size ++ " OFFSET " ++ toString offset ++ "\n                "

/-- The (rows, total_rows, has_more, next_offset) part of a paginated result. -/
structure PageResult (α : Type) where
  rows : List α
  total_rows : Option Nat
  has_more : Bool
  next_offset : Nat
deriving Repr, DecidableEq

/-- Embedding of `SnowflakeConnectionManager.execute_query_paginated`
(`snowflake_pool.py` lines 191-247).  `db` is the full result set of the
caller's query; the returned trace lists the statements executed, in order.
The count branch mirrors `total_rows = result[0] if result else 0`: in the
model the count query always returns the single row `[sqlCount db]`. -/
def execute_query_paginated (db : List α) (query : String)
    (batch_size offset : Nat) (include_count : Bool) :
    PageResult α × List SqlStmt :=
  let countPart : Option Nat × List SqlStmt :=
    if include_count && offset == 0 then
      (some (sqlCount db), [SqlStmt.count (snowflakeCountQuery query)])
    else
      (none, [])
  let total_rows := countPart.1
  let paginated_query := snowflakePaginatedQuery query batch_size offset
  let rows := sqlLimitOffset db batch_size offset
  let rows_fetched := rows.length
  let next_offset := offset + rows_fetched
  let has_more : Bool :=
    match total_rows with
    | some t => decide (next_offset < t)
    | none => rows_fetched == batch_size
  (⟨rows, total_rows, has_more, next_offset⟩,
    countPart.2 ++ [SqlStmt.page paginated_query])

/-! ## Postgres flavor: runtime values and fallback type inference -/

/-- A Python runtime value as seen by the postgres router's fallback type
inference.  Only the type tag matters to the inference; `float` is kept
abstract (its numeric payload plays no role in any claim). -/
inductive PyValue where
  | int (n : Int)
  | float
  | bool (b : Bool)
  | str (s : String)
  | none
deriving DecidableEq, Repr

/-- Python `isinstance(v, int)`: true for ints and for bools, since `bool`
is a subclass of `int` in Python. -/
def isinstance_int : PyValue → Bool
  | .int _ => true
  | .bool _ => true
  | _ => false

/-- Python `isinstance(v, float)`. -/
def isinstance_float : PyValue → Bool
  | .float => true
  | _ => false

/-- Python `isinstance(v, bool)`. -/
def isinstance_bool : PyValue → Bool
  | .bool _ => true
  | _ => false

/-- The per-value branch of the fallback inference in
`execute_paginated_query` (`postgres.py` lines 369-376):
`pg_type = "text"`, then the `if isinstance(value, int)` /
`elif isinstance(value, float)` / `elif isinstance(value, bool)` chain. -/
def infer_pg_type (value : PyValue) : String :=
  if isinstance_int value then "integer"
  else if isinstance_float value then "double precision"
  else if isinstance_bool value then "boolean"
  else "text"

/-- Column metadata returned by the postgres paginated endpoint. -/
structure ColumnInfo where
  name : String
  type : String
  nullable : Bool
deriving DecidableEq, Repr

/-- The schema-inference loop of `execute_paginated_query` (`postgres.py`
lines 362-379): if the page is non-empty, walk the first record's
(key, value) pairs and infer each column's type from the value. -/
def infer_schema (records : List (List (String × PyValue))) : List ColumnInfo :=
  match records with
  | [] => []
  | first_record :: _ =>
      first_record.map fun kv => ⟨kv.1, infer_pg_type kv.2, true⟩

/-- The count query string built by `execute_paginated_query` in
`postgres.py`. -/
def postgresCountQuery (query : String) : String :=
  "SELECT COUNT(*) as total FROM (" ++ query ++ ") AS subq"

/-- The windowed query f-string built by `execute_paginated_query` in
`postgres.py` (including the triple-quoted-string whitespace). -/
def postgresPaginatedQuery (query : String) (batch_size offset : Nat) : String :=
  "\n                SELECT * FROM (" ++ query ++ ") AS subq\n                LIMIT "
    ++ toString batch_size ++ " OFFSET " ++ toString offset ++ "\n            "

/-- Embedding of the router handler `execute_paginated_query`
(`postgres.py` lines 312-405).  `db` is the full result set of the caller's
query, each row an ordered record of (column name, value).  Returns the page
result, the inferred column metadata, and the statement trace.  The count
branch mirrors `total_rows = count_result["total"] if count_result else 0`. -/
def execute_paginated_query (db : List (List (String × PyValue))) (query : String)
    (batch_size offset : Nat) (include_count : Bool) :
    PageResult (List (String × PyValue)) × List ColumnInfo × List SqlStmt :=
  let countPart : Option Nat × List SqlStmt :=
    if include_count && offset == 0 then
      (some (sqlCount db), [SqlStmt.count (postgresCountQuery query)])
    else
      (none, [])
  let total_rows := countPart.1
  let paginated_query := postgresPaginatedQuery query batch_size offset
  let records := sqlLimitOffset db batch_size offset
  let schema_info := infer_schema records
  let rows_fetched := records.length
  let next_offset := offset + rows_fetched
  let has_more : Bool :=
    match total_rows with
    | some t => decide (next_offset < t)
    | none => rows_fetched == batch_size
  (⟨records, total_rows, has_more, next_offset⟩, schema_info,
    countPart.2 ++ [SqlStmt.page paginated_query])

/-! ## PostgresPoolManager (`postgres_pool.py`)

Each public method's body runs entirely inside `async with cls._lock`, so the
class serializes all reads and mutations of the shared `_pools` mapping; the
embedding therefore models each call as one atomic step on an explicit state.
Pool construction may fail (`construct_ok`) and closing a pool may fail
(`close_fails`), mirroring the driver exceptions the code can see. -/

/-- Credential parameters handed to `PostgresPoolManager.get_pool`. -/
structure PgCredential where
  host : String
  port : Nat
  database : String
  username : String
  password : String
  ssl_mode : String
deriving DecidableEq, Repr

/-- The `ssl` argument passed to `asyncpg`: `None`, a boolean, or a string. -/
inductive SslSetting where
  | default
  | bool (b : Bool)
  | str (s : String)
deriving DecidableEq, Repr

/-- The `ssl` value built from `ssl_mode` (`postgres_pool.py` lines 29-34 and
76-80): `"disable"` gives `ssl = False`; `"require"`, `"verify-ca"`,
`"verify-full"` give `ssl = "require"`; everything else leaves the default
`None` (driver negotiates). -/
def build_ssl (ssl_mode : String) : SslSetting :=
  if ssl_mode = "disable" then SslSetting.bool false
  else if ssl_mode = "require" ∨ ssl_mode = "verify-ca" ∨ ssl_mode = "verify-full" then
    SslSetting.str "require"
  else SslSetting.default

/-- The keyword arguments of the `asyncpg.create_pool` call
(`postgres_pool.py` lines 36-46). -/
structure PoolConfig where
  host : String
  port : Nat
  database : String
  user : String
  password : String
  ssl : SslSetting
  min_size : Nat
  max_size : Nat
  command_timeout : Nat
deriving DecidableEq, Repr

/-- The `asyncpg.create_pool(...)` call made by `get_pool`. -/
def create_pool (cred : PgCredential) : PoolConfig :=
  ⟨cred.host, cred.port, cred.database, cred.username, cred.password,
    build_ssl cred.ssl_mode, 1, 5, 60⟩

/-- A live pool object: an identity plus the configuration it was created
with. -/
abbrev PgPool : Type := Nat × PoolConfig

/-- State of `PostgresPoolManager`: the class-level `_pools` mapping, a
counter supplying fresh pool identities, and a count of
`asyncpg.create_pool` calls made so far. -/
structure PgPoolState where
  pools : List (String × PgPool)
  next_handle : Nat
  constructions : Nat

namespace PostgresPoolManager

/-- Embedding of `PostgresPoolManager.get_pool` (`postgres_pool.py` lines
14-47): under the lock, return the cached pool if `connection_id` is
present, otherwise create one, cache it and return it.  `construct_ok`
tells whether the `asyncpg.create_pool` call succeeds; on failure the
exception propagates and nothing is cached. -/
def get_pool (construct_ok : Bool) (st : PgPoolState) (connection_id : String)
    (cred : PgCredential) : Except Unit (PgPool × PgPoolState) :=
  match st.pools.lookup connection_id with
  | some pool => Except.ok (pool, st)
  | none =>
      if construct_ok then
        let pool : PgPool := (st.next_handle, create_pool cred)
        Except.ok (pool,
          ⟨st.pools ++ [(connection_id, pool)], st.next_handle + 1,
            st.constructions + 1⟩)
      else Except.error ()

/-- N successive serialized `get_pool` calls for the same key and credential
(the lock admits them one at a time); construction is assumed to succeed.
Returns the handles given to the callers and the final state. -/
def get_pool_iter (connection_id : String) (cred : PgCredential) :
    Nat → PgPoolState → List PgPool × PgPoolState
  | 0, st => ([], st)
  | n + 1, st =>
      match get_pool true st connection_id cred with
      | Except.ok (pool, st1) =>
          let rest := get_pool_iter connection_id cred n st1
          (pool :: rest.1, rest.2)
      | Except.error _ => ([], st)

/-- The per-pool loop of `close_all` (`postgres_pool.py` lines 61-62):
`await pool.close()` with no exception handling, so the first failing close
aborts the loop and propagates. -/
def close_all_loop (close_fails : Nat → Bool) :
    List (String × PgPool) → Except Unit Unit
  | [] => Except.ok ()
  | kv :: rest =>
      if close_fails kv.2.1 then Except.error ()
      else close_all_loop close_fails rest

/-- Embedding of `PostgresPoolManager.close_all` (`postgres_pool.py` lines
57-63): close every pool in order, then `clear()` the mapping.  A failing
close raises out of the method before `clear()` runs, leaving the mapping
as it was. -/
def close_all (close_fails : Nat → Bool) (st : PgPoolState) :
    Except Unit Unit × PgPoolState :=
  match close_all_loop close_fails st.pools with
  | Except.ok _ => (Except.ok (), ⟨[], st.next_handle, st.constructions⟩)
  | Except.error e => (Except.error e, st)

/-- Embedding of `PostgresPoolManager.test_connection` (`postgres_pool.py`
lines 65-95): connect with a throwaway connection, close it, return `True`;
any exception (from connect or close) is re-raised.  The credential's
parameters do not influence which value can be returned. -/
def test_connection (connect_ok close_ok : Bool) (cred : PgCredential) :
    Except Unit Bool :=
  let _ssl := build_ssl cred.ssl_mode
  if connect_ok then
    if close_ok then Except.ok true else Except.error ()
  else Except.error ()

end PostgresPoolManager

/-! ## SnowflakeConnectionManager (`snowflake_pool.py`)

Same atomicity argument: `get_connection`, `close_connection` and
`close_all` each hold `cls._lock` for their whole body.  `alive conn` is the
outcome of the `SELECT 1` liveness probe on a cached connection,
`close_fails conn` whether `conn.close()` raises (the code swallows this),
and `construct_ok` whether `snowflake.connector.connect` succeeds. -/

/-- State of `SnowflakeConnectionManager`: the class-level `_connections`
mapping, a fresh-handle counter, a count of connection constructions, and
the log of attempted closes (handle, close-raised?). -/
structure SnowflakeState where
  connections : List (String × Nat)
  next_handle : Nat
  constructions : Nat
  closed : List (Nat × Bool)

namespace SnowflakeConnectionManager

/-- The creation tail of `get_connection` (`snowflake_pool.py` lines 82-97):
construct a new connection off the worker pool, cache it, return it;
a construction failure propagates. -/
def create_connection (construct_ok : Bool) (connection_id : String)
    (st : SnowflakeState) : Except Unit (Nat × SnowflakeState) :=
  if construct_ok then
    Except.ok (st.next_handle,
      ⟨st.connections ++ [(connection_id, st.next_handle)], st.next_handle + 1,
        st.constructions + 1, st.closed⟩)
  else Except.error ()

/-- Embedding of `SnowflakeConnectionManager.get_connection`
(`snowflake_pool.py` lines 50-97): under the lock, if a cached connection
exists, probe it with `SELECT 1`; on probe success return it; on probe
failure close it (ignoring close errors), evict it, and fall through to
creation; if absent, create. -/
def get_connection (alive : Nat → Bool) (close_fails : Nat → Bool)
    (construct_ok : Bool) (st : SnowflakeState) (connection_id : String) :
    Except Unit (Nat × SnowflakeState) :=
  match st.connections.lookup connection_id with
  | some conn =>
      if alive conn then Except.ok (conn, st)
      else
        create_connection construct_ok connection_id
          ⟨st.connections.filter (fun kv => !(kv.1 == connection_id)),
            st.next_handle, st.constructions,
            st.closed ++ [(conn, close_fails conn)]⟩
  | none => create_connection construct_ok connection_id st

/-- N successive serialized `get_connection` calls for the same key (the
lock admits them one at a time); construction is assumed to succeed. -/
def get_connection_iter (alive close_fails : Nat → Bool)
    (connection_id : String) :
    Nat → SnowflakeState → List Nat × SnowflakeState
  | 0, st => ([], st)
  | n + 1, st =>
      match get_connection alive close_fails true st connection_id with
      | Except.ok (conn, st1) =>
          let rest := get_connection_iter alive close_fails connection_id n st1
          (conn :: rest.1, rest.2)
      | Except.error _ => ([], st)

/-- Embedding of `SnowflakeConnectionManager.close_all` (`snowflake_pool.py`
lines 112-122): close every cached connection, each close wrapped in
`try/except: pass`, then `clear()` the mapping.  Total — it never raises. -/
def close_all (close_fails : Nat → Bool) (st : SnowflakeState) :
    SnowflakeState :=
  ⟨[], st.next_handle, st.constructions,
    st.closed ++ st.connections.map (fun kv => (kv.2, close_fails kv.2))⟩

/-- Embedding of `SnowflakeConnectionManager.test_connection`
(`snowflake_pool.py` lines 124-155): build a throwaway connection (may
raise), execute `SELECT CURRENT_VERSION()` in a `try` block, return `True`,
with `conn.close()` in the `finally` (a close failure raises too). -/
def test_connection (construct_ok execute_ok close_ok : Bool) :
    Except Unit Bool :=
  if construct_ok then
    if execute_ok then
      if close_ok then Except.ok true else Except.error ()
    else Except.error ()
  else Except.error ()

end SnowflakeConnectionManager

/-! ## Identifier quoting -/

/-- Doubling of embedded double-quote characters, character by character. -/
def escape_quote_chars : List Char → List Char
  | [] => []
  | c :: rest =>
      if c = '"' then '"' :: '"' :: escape_quote_chars rest
      else c :: escape_quote_chars rest

/-- Modelled from the spec: the identifier-quoting utility `quote_identifier`
is imported from `routers.snowflake` by `tests/test_snowflake_utils.py`, but
its definition is absent from the source snapshot (the router contains no
such function).  Per the spec and the tests: wrap the identifier in double
quotes, doubling every embedded double quote; fail with an InvalidIdentifier
error (a `ValueError` whose message contains "Invalid identifier") when the
input is absent (`None`), empty, or longer than 255 characters. -/
def quote_identifier : Option String → Except String String
  | Option.none => Except.error "Invalid identifier"
  | Option.some s =>
      if s.length = 0 ∨ 255 < s.length then Except.error "Invalid identifier"
      else Except.ok (String.mk ('"' :: (escape_quote_chars s.data ++ ['"'])))

/-! ## Helper lemmas -/

/-- Closed form of the snowflake-flavor paginated execution. -/
theorem execute_query_paginated_eq (db : List α) (q : String) (bs off : Nat)
    (ic : Bool) :
    execute_query_paginated db q bs off ic =
      (⟨sqlLimitOffset db bs off,
        if ic && off == 0 then some db.length else none,
        if ic && off == 0 then
          decide (off + (sqlLimitOffset db bs off).length < db.length)
        else ((sqlLimitOffset db bs off).length == bs),
        off + (sqlLimitOffset db bs off).length⟩,
       (if ic && off == 0 then [SqlStmt.count (snowflakeCountQuery q)] else [])
         ++ [SqlStmt.page (snowflakePaginatedQuery q bs off)]) := by
  unfold execute_query_paginated
  by_cases h : (ic && off == 0) = true
  · simp [h, sqlCount]
  · simp [h, sqlCount]

/-- Closed form of the postgres-flavor paginated execution. -/
theorem execute_paginated_query_eq (db : List (List (String × PyValue)))
    (q : String) (bs off : Nat) (ic : Bool) :
    execute_paginated_query db q bs off ic =
      (⟨sqlLimitOffset db bs off,
        if ic && off == 0 then some db.length else none,
        if ic && off == 0 then
          decide (off + (sqlLimitOffset db bs off).length < db.length)
        else ((sqlLimitOffset db bs off).length == bs),
        off + (sqlLimitOffset db bs off).length⟩,
       infer_schema (sqlLimitOffset db bs off),
       (if ic && off == 0 then [SqlStmt.count (postgresCountQuery q)] else [])
         ++ [SqlStmt.page (postgresPaginatedQuery q bs off)]) := by
  unfold execute_paginated_query
  by_cases h : (ic && off == 0) = true
  · simp [h, sqlCount]
  · simp [h, sqlCount]

/-- A window at offset 0 over a result set of exactly `n` rows, with batch
size `n`, returns all `n` rows. -/
theorem sqlLimitOffset_full (db : List α) (n : Nat) (h : db.length = n) :
    (sqlLimitOffset db n 0).length = n := by
  simp [sqlLimitOffset, h]

/-! ## Claims -/

/-- C1: for every paginated execution, in both backend flavors, the returned
`next_offset` equals `offset` plus the number of rows returned for the page;
whenever `total_rows` is known, the returned `has_more` equals
`next_offset < total_rows`; and for `batch_size = 5`, a result set of exactly
5 rows and `total_rows` known to be 5, the first page returns
`has_more = false` and `next_offset = 5`. -/
theorem pagination_offset_invariant_and_counted_has_more :
    (∀ (α : Type) (db : List α) (q : String) (bs off : Nat) (ic : Bool),
      (execute_query_paginated db q bs off ic).1.next_offset
          = off + (execute_query_paginated db q bs off ic).1.rows.length
        ∧ ∀ t, (execute_query_paginated db q bs off ic).1.total_rows = some t →
            ((execute_query_paginated db q bs off ic).1.has_more = true ↔
              (execute_query_paginated db q bs off ic).1.next_offset < t))
    ∧ (∀ (db : List (List (String × PyValue))) (q : String) (bs off : Nat)
        (ic : Bool),
      (execute_paginated_query db q bs off ic).1.next_offset
          = off + (execute_paginated_query db q bs off ic).1.rows.length
        ∧ ∀ t, (execute_paginated_query db q bs off ic).1.total_rows = some t →
            ((execute_paginated_query db q bs off ic).1.has_more = true ↔
              (execute_paginated_query db q bs off ic).1.next_offset < t))
    ∧ (∀ (α : Type) (db : List α) (q : String), db.length = 5 →
        (execute_query_paginated db q 5 0 true).1.has_more = false
          ∧ (execute_query_paginated db q 5 0 true).1.next_offset = 5)
    ∧ (∀ (db : List (List (String × PyValue))) (q : String), db.length = 5 →
        (execute_paginated_query db q 5 0 true).1.has_more = false
          ∧ (execute_paginated_query db q 5 0 true).1.next_offset = 5) := by
  refine ⟨?_, ?_, ?_, ?_⟩
  · intro α db q bs off ic
    rw [execute_query_paginated_eq]
    refine ⟨rfl, ?_⟩
    intro t ht
    by_cases h : (ic && off == 0) = true
    · simp only [h, if_true] at ht ⊢
      cases ht
      simp
    · simp only [h, if_false, Bool.not_eq_true] at ht
      simp [h] at ht
  · intro db q bs off ic
    rw [execute_paginated_query_eq]
    refine ⟨rfl, ?_⟩
    intro t ht
    by_cases h : (ic && off == 0) = true
    · simp only [h, if_true] at ht ⊢
      cases ht
      simp
    · simp only [h, if_false, Bool.not_eq_true] at ht
      simp [h] at ht
  · intro α db q h5
    rw [execute_query_paginated_eq]
    simp [sqlLimitOffset_full db 5 h5, h5]
  · intro db q h5
    rw [execute_paginated_query_eq]
    simp [sqlLimitOffset_full db 5 h5, h5]

/-- Witness for C1: the counted-has_more clause and the 5-row boundary
clause, instantiated at a concrete 5-row result set. -/
theorem pagination_offset_invariant_and_counted_has_more_witness :
    ((execute_query_paginated [0, 1, 2, 3, 4] "SELECT 1" 5 0 true).1.total_rows
        = some 5)
    ∧ ((execute_query_paginated [0, 1, 2, 3, 4] "SELECT 1" 5 0 true).1.has_more
          = true ↔
        (execute_query_paginated [0, 1, 2, 3, 4] "SELECT 1" 5 0 true).1.next_offset
          < 5)
    ∧ (execute_query_paginated [0, 1, 2, 3, 4] "SELECT 1" 5 0 true).1.has_more
        = false
    ∧ (execute_query_paginated [0, 1, 2, 3, 4] "SELECT 1" 5 0 true).1.next_offset
        = 5 :=
  ⟨by decide,
   (pagination_offset_invariant_and_counted_has_more.1 Nat [0, 1, 2, 3, 4]
       "SELECT 1" 5 0 true).2 5 (by decide),
   (pagination_offset_invariant_and_counted_has_more.2.2.1 Nat [0, 1, 2, 3, 4]
       "SELECT 1" (by decide)).1,
   (pagination_offset_invariant_and_counted_has_more.2.2.1 Nat [0, 1, 2, 3, 4]
       "SELECT 1" (by decide)).2⟩

/-- C2: for every paginated execution where no total count is available
(`include_count` false or `offset` nonzero), in both flavors, `has_more`
equals `rows_fetched == batch_size`; consequently on a result set of exactly
10 rows with `batch_size = 10` and no count, the full page reports
`has_more = true` even though no further rows exist. -/
theorem pagination_heuristic_has_more :
    (∀ (α : Type) (db : List α) (q : String) (bs off : Nat) (ic : Bool),
      ic = false ∨ off ≠ 0 →
        (execute_query_paginated db q bs off ic).1.total_rows = none
          ∧ (execute_query_paginated db q bs off ic).1.has_more
              = ((execute_query_paginated db q bs off ic).1.rows.length == bs))
    ∧ (∀ (db : List (List (String × PyValue))) (q : String) (bs off : Nat)
        (ic : Bool),
      ic = false ∨ off ≠ 0 →
        (execute_paginated_query db q bs off ic).1.total_rows = none
          ∧ (execute_paginated_query db q bs off ic).1.has_more
              = ((execute_paginated_query db q bs off ic).1.rows.length == bs))
    ∧ (∀ (α : Type) (db : List α) (q : String), db.length = 10 →
        (execute_query_paginated db q 10 0 false).1.has_more = true
          ∧ (execute_query_paginated db q 10 0 false).1.rows.length = 10
          ∧ db.drop (execute_query_paginated db q 10 0 false).1.next_offset = [])
    ∧ (∀ (db : List (List (String × PyValue))) (q : String), db.length = 10 →
        (execute_paginated_query db q 10 0 false).1.has_more = true
          ∧ (execute_paginated_query db q 10 0 false).1.rows.length = 10
          ∧ db.drop (execute_paginated_query db q 10 0 false).1.next_offset
              = []) := by
  have hcond : ∀ (ic : Bool) (off : Nat), ic = false ∨ off ≠ 0 →
      (ic && off == 0) = false := by
    intro ic off h
    rcases h with h | h
    · simp [h]
    · simp [h]
  refine ⟨?_, ?_, ?_, ?_⟩
  · intro α db q bs off ic h
    rw [execute_query_paginated_eq]
    simp [hcond ic off h]
  · intro db q bs off ic h
    rw [execute_paginated_query_eq]
    simp [hcond ic off h]
  · intro α db q h10
    rw [execute_query_paginated_eq]
    simp [sqlLimitOffset_full db 10 h10, h10]
  · intro db q h10
    rw [execute_paginated_query_eq]
    simp [sqlLimitOffset_full db 10 h10, h10]

/-- Witness for C2: the no-count heuristic and the exact-multiple edge case,
instantiated at a concrete 10-row result set. -/
theorem pagination_heuristic_has_more_witness :
    ((execute_query_paginated [0, 1, 2, 3, 4, 5, 6, 7, 8, 9] "SELECT 1" 10 0
        false).1.total_rows = none)
    ∧ ((execute_query_paginated [0, 1, 2, 3, 4, 5, 6, 7, 8, 9] "SELECT 1" 10 0
        false).1.has_more = true)
    ∧ (List.drop
        (execute_query_paginated [0, 1, 2, 3, 4, 5, 6, 7, 8, 9] "SELECT 1" 10 0
          false).1.next_offset [0, 1, 2, 3, 4, 5, 6, 7, 8, 9] = ([] : List Nat)) :=
  ⟨(pagination_heuristic_has_more.1 Nat [0, 1, 2, 3, 4, 5, 6, 7, 8, 9]
      "SELECT 1" 10 0 false (Or.inl rfl)).1,
   (pagination_heuristic_has_more.2.2.1 Nat [0, 1, 2, 3, 4, 5, 6, 7, 8, 9]
      "SELECT 1" (by decide)).1,
   (pagination_heuristic_has_more.2.2.1 Nat [0, 1, 2, 3, 4, 5, 6, 7, 8, 9]
      "SELECT 1" (by decide)).2.2⟩

/-- C3: in both flavors, the separate COUNT round trip appears in the
statement trace if and only if `include_count` is true and `offset = 0`; in
that case `total_rows` is the captured count scalar, and in every other case
`total_rows` is `none`. -/
theorem pagination_count_round_trip :
    (∀ (α : Type) (db : List α) (q : String) (bs off : Nat) (ic : Bool),
      ((∃ sql, SqlStmt.count sql ∈ (execute_query_paginated db q bs off ic).2)
          ↔ ic = true ∧ off = 0)
        ∧ (ic = true ∧ off = 0 →
            (execute_query_paginated db q bs off ic).2
                = [SqlStmt.count (snowflakeCountQuery q),
                   SqlStmt.page (snowflakePaginatedQuery q bs off)]
              ∧ (execute_query_paginated db q bs off ic).1.total_rows
                  = some (sqlCount db))
        ∧ (¬(ic = true ∧ off = 0) →
            (execute_query_paginated db q bs off ic).1.total_rows = none))
    ∧ (∀ (db : List (List (String × PyValue))) (q : String) (bs off : Nat)
        (ic : Bool),
      ((∃ sql, SqlStmt.count sql ∈ (execute_paginated_query db q bs off ic).2.2)
          ↔ ic = true ∧ off = 0)
        ∧ (ic = true ∧ off = 0 →
            (execute_paginated_query db q bs off ic).2.2
                = [SqlStmt.count (postgresCountQuery q),
                   SqlStmt.page (postgresPaginatedQuery q bs off)]
              ∧ (execute_paginated_query db q bs off ic).1.total_rows
                  = some (sqlCount db))
        ∧ (¬(ic = true ∧ off = 0) →
            (execute_paginated_query db q bs off ic).1.total_rows = none)) := by
  constructor
  · intro α db q bs off ic
    rw [execute_query_paginated_eq]
    by_cases h : (ic && off == 0) = true
    · have hic : ic = true ∧ off = 0 := by
        rcases Bool.and_eq_true_iff.mp h with ⟨h1, h2⟩
        exact ⟨h1, by simpa using h2⟩
      simp only [h, if_true]
      refine ⟨?_, ?_, ?_⟩
      · exact ⟨fun _ => hic, fun _ => ⟨snowflakeCountQuery q, by simp⟩⟩
      · intro _
        exact ⟨rfl, rfl⟩
      · intro hn
        exact absurd hic hn
    · have hni : ¬(ic = true ∧ off = 0) := by
        intro ⟨h1, h2⟩
        apply h
        simp [h1, h2]
      simp only [h, if_false]
      refine ⟨?_, ?_, ?_⟩
      · constructor
        · intro ⟨sql, hm⟩
          simp at hm
        · intro hic
          exact absurd hic hni
      · intro hic
        exact absurd hic hni
      · intro _
        rfl
  · intro db q bs off ic
    rw [execute_paginated_query_eq]
    by_cases h : (ic && off == 0) = true
    · have hic : ic = true ∧ off = 0 := by
        rcases Bool.and_eq_true_iff.mp h with ⟨h1, h2⟩
        exact ⟨h1, by simpa using h2⟩
      simp only [h, if_true]
      refine ⟨?_, ?_, ?_⟩
      · exact ⟨fun _ => hic, fun _ => ⟨postgresCountQuery q, by simp⟩⟩
      · intro _
        exact ⟨rfl, rfl⟩
      · intro hn
        exact absurd hic hn
    · have hni : ¬(ic = true ∧ off = 0) := by
        intro ⟨h1, h2⟩
        apply h
        simp [h1, h2]
      simp only [h, if_false]
      refine ⟨?_, ?_, ?_⟩
      · constructor
        · intro ⟨sql, hm⟩
          simp at hm
        · intro hic
          exact absurd hic hni
      · intro hic
        exact absurd hic hni
      · intro _
        rfl

/-- Witness for C3: at a concrete first-page request the trace holds the
count statement and `total_rows` is the scalar; at a concrete later-page
request `total_rows` is `none`. -/
theorem pagination_count_round_trip_witness :
    ((execute_query_paginated [7] "SELECT 1" 1 0 true).2
        = [SqlStmt.count (snowflakeCountQuery "SELECT 1"),
           SqlStmt.page (snowflakePaginatedQuery "SELECT 1" 1 0)]
      ∧ (execute_query_paginated [7] "SELECT 1" 1 0 true).1.total_rows
          = some (sqlCount [7]))
    ∧ (execute_query_paginated [7] "SELECT 1" 1 1 true).1.total_rows = none :=
  ⟨(pagination_count_round_trip.1 Nat [7] "SELECT 1" 1 0 true).2.1
      ⟨rfl, rfl⟩,
   (pagination_count_round_trip.1 Nat [7] "SELECT 1" 1 1 true).2.2
      (by intro h; exact absurd h.2 (by decide))⟩

/-- Doubling the quotes in a list doubles the double-quote count. -/
theorem escape_quote_chars_count_quote (l : List Char) :
    (escape_quote_chars l).count '"' = 2 * l.count '"' := by
  induction l with
  | nil => simp [escape_quote_chars]
  | cons c rest ih =>
      by_cases h : c = '"'
      · subst h
        simp [escape_quote_chars, List.count_cons, ih]
        ring
      · simp [escape_quote_chars, List.count_cons, h, ih]

/-- Doubling the quotes in a list leaves every other character's count
unchanged. -/
theorem escape_quote_chars_count_other (c : Char) (hc : c ≠ '"')
    (l : List Char) : (escape_quote_chars l).count c = l.count c := by
  induction l with
  | nil => simp [escape_quote_chars]
  | cons a rest ih =>
      by_cases h : a = '"'
      · subst h
        simp [escape_quote_chars, List.count_cons, hc, ih]
      · simp [escape_quote_chars, List.count_cons, h, ih]

/-- C4: quoting a non-empty identifier of length at most 255 wraps it in
double quotes with every embedded double quote doubled (the double-quote
count doubles, all other character counts are preserved); quoting fails with
the InvalidIdentifier error exactly on absent, empty, or over-255-character
input; and `quote_identifier` of 255 copies of 'a' succeeds and is those 255
copies wrapped in double quotes. -/
theorem quote_identifier_contract :
    (∀ s : String, 1 ≤ s.length → s.length ≤ 255 →
        quote_identifier (some s)
            = Except.ok (String.mk ('"' :: (escape_quote_chars s.data ++ ['"'])))
          ∧ (escape_quote_chars s.data).count '"' = 2 * s.data.count '"'
          ∧ ∀ c, c ≠ '"' → (escape_quote_chars s.data).count c = s.data.count c)
    ∧ quote_identifier Option.none = Except.error "Invalid identifier"
    ∧ quote_identifier (some "") = Except.error "Invalid identifier"
    ∧ (∀ s : String, 255 < s.length →
        quote_identifier (some s) = Except.error "Invalid identifier")
    ∧ quote_identifier (some (String.mk (List.replicate 255 'a')))
        = Except.ok (String.mk ('"' :: (List.replicate 255 'a' ++ ['"']))) := by
  refine ⟨?_, rfl, rfl, ?_, ?_⟩
  · intro s h1 h2
    have hcond : ¬(s.length = 0 ∨ 255 < s.length) := by omega
    refine ⟨?_, escape_quote_chars_count_quote s.data,
      fun c hc => escape_quote_chars_count_other c hc s.data⟩
    simp [quote_identifier, hcond]
  · intro s h
    have hcond : s.length = 0 ∨ 255 < s.length := Or.inr h
    simp [quote_identifier, hcond]
  · rfl

/-- Witness for C4: the quoting contract at the concrete identifier
containing an embedded double quote, and the rejection of 256 characters. -/
theorem quote_identifier_contract_witness :
    (quote_identifier (some "ta\"ble")
        = Except.ok (String.mk ('"' :: (escape_quote_chars "ta\"ble".data ++ ['"']))))
    ∧ (escape_quote_chars "ta\"ble".data).count '"'
        = 2 * "ta\"ble".data.count '"'
    ∧ (escape_quote_chars "ta\"ble".data).count 'a' = "ta\"ble".data.count 'a'
    ∧ quote_identifier (some (String.mk (List.replicate 256 'a')))
        = Except.error "Invalid identifier" :=
  ⟨(quote_identifier_contract.1 "ta\"ble" (by decide) (by decide)).1,
   (quote_identifier_contract.1 "ta\"ble" (by decide) (by decide)).2.1,
   (quote_identifier_contract.1 "ta\"ble" (by decide) (by decide)).2.2 'a'
      (by decide),
   quote_identifier_contract.2.2.2.1 (String.mk (List.replicate 256 'a'))
      (by decide)⟩

/-- C5 evaluation: the relational flavor's fallback inference maps a boolean
first-row value to "integer", not "boolean" — Python's `bool` is a subclass
of `int`, so `isinstance(value, int)` captures booleans first and the
`elif isinstance(value, bool)` branch is unreachable.  Integers map to
"integer", floats to "double precision", and other values to "text" as
claimed. -/
theorem infer_pg_type_boolean_maps_to_integer :
    infer_pg_type (PyValue.bool true) = "integer"
      ∧ infer_pg_type (PyValue.bool false) = "integer"
      ∧ infer_pg_type (PyValue.bool true) ≠ "boolean"
      ∧ (execute_paginated_query [[("flag", PyValue.bool true)]] "SELECT 1"
          10 0 false).2.1 = [⟨"flag", "integer", true⟩]
      ∧ infer_pg_type (PyValue.int 3) = "integer"
      ∧ infer_pg_type PyValue.float = "double precision"
      ∧ infer_pg_type (PyValue.str "x") = "text"
      ∧ infer_pg_type PyValue.none = "text" :=
  ⟨rfl, rfl, by decide, rfl, rfl, rfl, rfl, rfl⟩

/-- Looking a key up past a prefix that does not contain it. -/
theorem lookup_append_of_none {β : Type} {l1 : List (String × β)}
    (l2 : List (String × β)) {k : String} (h : l1.lookup k = none) :
    (l1 ++ l2).lookup k = l2.lookup k := by
  rw [List.lookup_append, h]
  rfl

/-- A key never survives filtering out all of its own entries. -/
theorem lookup_filter_self {β : Type} (l : List (String × β)) (k : String) :
    (l.filter (fun kv => !(kv.1 == k))).lookup k = none := by
  rw [List.lookup_eq_none_iff]
  intro p hp
  rw [List.mem_filter] at hp
  have h2 := hp.2
  simp only [Bool.not_eq_true', beq_eq_false_iff_ne] at h2
  simpa [bne_iff_ne] using Ne.symm h2

/-- While a pool for the key is cached, repeated `get_pool` calls hand every
caller that same pool and never touch the state. -/
theorem get_pool_iter_cached (cid : String) (cred : PgCredential) (m : Nat)
    (st : PgPoolState) (pool : PgPool) (h : st.pools.lookup cid = some pool) :
    PostgresPoolManager.get_pool_iter cid cred m st
      = (List.replicate m pool, st) := by
  induction m with
  | zero => rfl
  | succ k ih =>
      unfold PostgresPoolManager.get_pool_iter PostgresPoolManager.get_pool
      rw [h]
      simp [ih, List.replicate_succ]

/-- While a live connection for the key is cached, repeated `get_connection`
calls hand every caller that same connection and never touch the state. -/
theorem get_connection_iter_cached (alive close_fails : Nat → Bool)
    (cid : String) (m : Nat) (st : SnowflakeState) (conn : Nat)
    (h : st.connections.lookup cid = some conn) (ha : alive conn = true) :
    SnowflakeConnectionManager.get_connection_iter alive close_fails cid m st
      = (List.replicate m conn, st) := by
  induction m with
  | zero => rfl
  | succ k ih =>
      unfold SnowflakeConnectionManager.get_connection_iter
        SnowflakeConnectionManager.get_connection
      rw [h]
      simp [ha, ih, List.replicate_succ]

/-- C6: for both flavors, N serialized `acquire_or_create` calls for the same
never-before-seen `connection_id` (the exclusive-access guard admits the
callers one at a time, each holding the lock for its whole body) make exactly
one underlying construction call, every caller receives the same resulting
handle, and the mapping gains exactly the one entry.  For the session-cache
flavor the liveness probe of the fresh session is assumed to succeed. -/
theorem single_construction_for_concurrent_acquires :
    (∀ (st : PgPoolState) (cid : String) (cred : PgCredential) (n : Nat),
      st.pools.lookup cid = none → 1 ≤ n →
        (PostgresPoolManager.get_pool_iter cid cred n st).1
            = List.replicate n (st.next_handle, create_pool cred)
          ∧ (PostgresPoolManager.get_pool_iter cid cred n st).2.constructions
              = st.constructions + 1
          ∧ (PostgresPoolManager.get_pool_iter cid cred n st).2.pools
              = st.pools ++ [(cid, (st.next_handle, create_pool cred))])
    ∧ (∀ (st : SnowflakeState) (cid : String) (alive close_fails : Nat → Bool)
        (n : Nat),
      st.connections.lookup cid = none → 1 ≤ n →
      alive st.next_handle = true →
        (SnowflakeConnectionManager.get_connection_iter alive close_fails cid
            n st).1 = List.replicate n st.next_handle
          ∧ (SnowflakeConnectionManager.get_connection_iter alive close_fails
              cid n st).2.constructions = st.constructions + 1
          ∧ (SnowflakeConnectionManager.get_connection_iter alive close_fails
              cid n st).2.connections
              = st.connections ++ [(cid, st.next_handle)]) := by
  constructor
  · intro st cid cred n h hn
    obtain ⟨m, rfl⟩ : ∃ m, n = m + 1 := ⟨n - 1, by omega⟩
    have hstep :
        PostgresPoolManager.get_pool true st cid cred
          = Except.ok ((st.next_handle, create_pool cred),
              ⟨st.pools ++ [(cid, (st.next_handle, create_pool cred))],
                st.next_handle + 1, st.constructions + 1⟩) := by
      unfold PostgresPoolManager.get_pool
      rw [h]
      rfl
    have hcached :
        (st.pools ++ [(cid, (st.next_handle, create_pool cred))]).lookup cid
          = some (st.next_handle, create_pool cred) := by
      rw [lookup_append_of_none _ h]
      simp [List.lookup]
    unfold PostgresPoolManager.get_pool_iter
    rw [hstep]
    dsimp only
    rw [get_pool_iter_cached cid cred m _ _ hcached]
    simp [List.replicate_succ]
  · intro st cid alive close_fails n h hn halive
    obtain ⟨m, rfl⟩ : ∃ m, n = m + 1 := ⟨n - 1, by omega⟩
    have hstep :
        SnowflakeConnectionManager.get_connection alive close_fails true st cid
          = Except.ok (st.next_handle,
              ⟨st.connections ++ [(cid, st.next_handle)], st.next_handle + 1,
                st.constructions + 1, st.closed⟩) := by
      unfold SnowflakeConnectionManager.get_connection
      rw [h]
      rfl
    have hcached :
        (st.connections ++ [(cid, st.next_handle)]).lookup cid
          = some st.next_handle := by
      rw [lookup_append_of_none _ h]
      simp [List.lookup]
    unfold SnowflakeConnectionManager.get_connection_iter
    rw [hstep]
    dsimp only
    rw [get_connection_iter_cached alive close_fails cid m _ _ hcached halive]
    simp [List.replicate_succ]

/-- Witness for C6: three racing acquisitions of a fresh key, in each flavor,
starting from the empty manager state. -/
theorem single_construction_for_concurrent_acquires_witness :
    ((PostgresPoolManager.get_pool_iter "c1"
          ⟨"localhost", 5432, "db", "u", "pw", "prefer"⟩ 3 ⟨[], 0, 0⟩).1
        = List.replicate 3
            (0, create_pool ⟨"localhost", 5432, "db", "u", "pw", "prefer"⟩)
      ∧ (PostgresPoolManager.get_pool_iter "c1"
          ⟨"localhost", 5432, "db", "u", "pw", "prefer"⟩ 3
          ⟨[], 0, 0⟩).2.constructions = 1)
    ∧ ((SnowflakeConnectionManager.get_connection_iter (fun _ => true)
          (fun _ => false) "c1" 3 ⟨[], 0, 0, []⟩).1 = List.replicate 3 0
      ∧ (SnowflakeConnectionManager.get_connection_iter (fun _ => true)
          (fun _ => false) "c1" 3 ⟨[], 0, 0, []⟩).2.constructions = 1) :=
  ⟨⟨(single_construction_for_concurrent_acquires.1 ⟨[], 0, 0⟩ "c1"
        ⟨"localhost", 5432, "db", "u", "pw", "prefer"⟩ 3 rfl (by omega)).1,
    (single_construction_for_concurrent_acquires.1 ⟨[], 0, 0⟩ "c1"
        ⟨"localhost", 5432, "db", "u", "pw", "prefer"⟩ 3 rfl (by omega)).2.1⟩,
   ⟨(single_construction_for_concurrent_acquires.2 ⟨[], 0, 0, []⟩ "c1"
        (fun _ => true) (fun _ => false) 3 rfl (by omega) rfl).1,
    (single_construction_for_concurrent_acquires.2 ⟨[], 0, 0, []⟩ "c1"
        (fun _ => true) (fun _ => false) 3 rfl (by omega) rfl).2.1⟩⟩

/-- C7: when a cached session's liveness probe fails and the new construction
succeeds, `get_connection` closes the stale session best-effort (the call
succeeds whatever the close outcome), evicts it from the mapping, caches a
newly constructed session and returns it without raising. -/
theorem stale_session_recovery :
    ∀ (st : SnowflakeState) (cid : String) (alive close_fails : Nat → Bool)
      (conn : Nat),
      st.connections.lookup cid = some conn → alive conn = false →
      SnowflakeConnectionManager.get_connection alive close_fails true st cid
          = Except.ok (st.next_handle,
              ⟨st.connections.filter (fun kv => !(kv.1 == cid))
                  ++ [(cid, st.next_handle)],
                st.next_handle + 1, st.constructions + 1,
                st.closed ++ [(conn, close_fails conn)]⟩)
        ∧ ((st.connections.filter (fun kv => !(kv.1 == cid))
              ++ [(cid, st.next_handle)]).lookup cid = some st.next_handle) := by
  intro st cid alive close_fails conn h ha
  constructor
  · unfold SnowflakeConnectionManager.get_connection
    rw [h]
    simp only [ha]
    rfl
  · rw [lookup_append_of_none _ (lookup_filter_self st.connections cid)]
    simp

/-- Witness for C7: one cached stale session (its probe fails, its close
raises and is ignored), recovered by a fresh construction. -/
theorem stale_session_recovery_witness :
    SnowflakeConnectionManager.get_connection (fun _ => false) (fun _ => true)
        true ⟨[("c1", 0)], 1, 1, []⟩ "c1"
        = Except.ok (1, ⟨[("c1", 1)], 2, 2, [(0, true)]⟩)
      ∧ ([("c1", (1 : Nat))].lookup "c1" = some 1) :=
  ⟨(stale_session_recovery ⟨[("c1", 0)], 1, 1, []⟩ "c1" (fun _ => false)
      (fun _ => true) 0 rfl rfl).1,
   (stale_session_recovery ⟨[("c1", 0)], 1, 1, []⟩ "c1"
      (fun _ => false) (fun _ => true) 0 rfl rfl).2⟩

/-- The relational flavor's close loop succeeds exactly when every cached
pool closes without error. -/
theorem close_all_loop_ok_iff (close_fails : Nat → Bool)
    (l : List (String × PgPool)) :
    PostgresPoolManager.close_all_loop close_fails l = Except.ok ()
      ↔ ∀ kv ∈ l, close_fails kv.2.1 = false := by
  induction l with
  | nil => simp [PostgresPoolManager.close_all_loop]
  | cons kv rest ih =>
      by_cases h : close_fails kv.2.1 = true
      · simp [PostgresPoolManager.close_all_loop, h]
      · simp only [Bool.not_eq_true] at h
        simp [PostgresPoolManager.close_all_loop, h, ih]

/-- C8 counterexample: in the relational flavor, a single cached pool whose
close fails makes `close_all` raise and leave the mapping non-empty — the
loop body `await pool.close()` has no exception handling, so `clear()` is
never reached.  This refutes the claim that teardown failures are swallowed
in both flavors. -/
theorem postgres_close_all_raises_counterexample :
    (PostgresPoolManager.close_all (fun _ => true)
        ⟨[("c1", (0, create_pool ⟨"h", 5432, "d", "u", "p", "prefer"⟩))], 1,
          1⟩).1 = Except.error ()
      ∧ (PostgresPoolManager.close_all (fun _ => true)
        ⟨[("c1", (0, create_pool ⟨"h", 5432, "d", "u", "p", "prefer"⟩))], 1,
          1⟩).2.pools ≠ [] := by
  constructor
  · rfl
  · intro hcontra
    simp [PostgresPoolManager.close_all,
      PostgresPoolManager.close_all_loop] at hcontra

/-- C8 amended: the session-cache flavor's `close_all` never raises, attempts
to close every cached session whatever the individual outcomes, and always
leaves the mapping empty; the relational flavor's `close_all` instead
propagates a close failure — it succeeds and empties the mapping exactly when
every pool's close succeeds, and otherwise raises with the mapping left
unchanged. -/
theorem close_all_teardown_behavior :
    (∀ (close_fails : Nat → Bool) (st : SnowflakeState),
        (SnowflakeConnectionManager.close_all close_fails st).connections = []
          ∧ (SnowflakeConnectionManager.close_all close_fails st).closed
              = st.closed
                  ++ st.connections.map (fun kv => (kv.2, close_fails kv.2)))
    ∧ (∀ (close_fails : Nat → Bool) (st : PgPoolState),
        ((PostgresPoolManager.close_all close_fails st).1 = Except.ok ()
            ∧ (PostgresPoolManager.close_all close_fails st).2.pools = []
          ∨ (PostgresPoolManager.close_all close_fails st).1 = Except.error ()
            ∧ (PostgresPoolManager.close_all close_fails st).2 = st)
        ∧ ((PostgresPoolManager.close_all close_fails st).1 = Except.ok ()
            ↔ ∀ kv ∈ st.pools, close_fails kv.2.1 = false)) := by
  constructor
  · intro close_fails st
    exact ⟨rfl, rfl⟩
  · intro close_fails st
    unfold PostgresPoolManager.close_all
    cases hloop : PostgresPoolManager.close_all_loop close_fails st.pools with
    | ok u =>
        cases u
        constructor
        · exact Or.inl ⟨rfl, rfl⟩
        · constructor
          · intro _
            exact (close_all_loop_ok_iff close_fails st.pools).mp hloop
          · intro _
            rfl
    | error e =>
        cases e
        constructor
        · exact Or.inr ⟨rfl, rfl⟩
        · constructor
          · intro hcontra
            exact absurd hcontra (by simp)
          · intro hall
            rw [(close_all_loop_ok_iff close_fails st.pools).mpr hall]
              at hloop
            cases hloop

/-- Witness for C8 amended: a session cache with two sessions, one of which
fails to close, is still torn down completely; a pool manager whose only
pool closes cleanly tears down and empties its mapping. -/
theorem close_all_teardown_behavior_witness :
    ((SnowflakeConnectionManager.close_all (fun h => h == 0)
        ⟨[("c1", 0), ("c2", 1)], 2, 2, []⟩).connections = []
      ∧ (SnowflakeConnectionManager.close_all (fun h => h == 0)
        ⟨[("c1", 0), ("c2", 1)], 2, 2, []⟩).closed
          = [] ++ [("c1", (0 : Nat)), ("c2", 1)].map
              (fun kv => (kv.2, kv.2 == 0)))
    ∧ ((PostgresPoolManager.close_all (fun _ => false)
        ⟨[("c1", (0, create_pool ⟨"h", 5432, "d", "u", "p", "prefer"⟩))], 1,
          1⟩).1 = Except.ok ()
      ↔ ∀ kv ∈ [("c1", ((0 : Nat),
            create_pool ⟨"h", 5432, "d", "u", "p", "prefer"⟩))],
          (fun (_ : Nat) => false) kv.2.1 = false) :=
  ⟨close_all_teardown_behavior.1 (fun h => h == 0)
      ⟨[("c1", 0), ("c2", 1)], 2, 2, []⟩,
   (close_all_teardown_behavior.2 (fun _ => false)
      ⟨[("c1", (0, create_pool ⟨"h", 5432, "d", "u", "p", "prefer"⟩))], 1,
        1⟩).2⟩

/-- C9 counterexample: the mode string the code recognises for forcing
plaintext is `"disable"`; the value `"disabled"` matches no branch, so the
pool is created with the driver-default negotiated transport rather than
forced plaintext. -/
theorem transport_mode_disabled_counterexample :
    (create_pool ⟨"h", 5432, "d", "u", "p", "disabled"⟩).ssl
        = SslSetting.default
      ∧ (create_pool ⟨"h", 5432, "d", "u", "p", "disabled"⟩).ssl
          ≠ SslSetting.bool false := by
  constructor
  · rfl
  · intro hcontra
    cases hcontra

/-- C9 amended: every pool built by `get_pool` is created with
`min_size = 1`, `max_size = 5` and a 60-second command timeout; the mode
`"disable"` forces plaintext (`ssl = False`), `"require"`/`"verify-ca"`/
`"verify-full"` force encrypted transport (`ssl = "require"`), and every
other mode string — `"prefer"`, `"allow"`, and unrecognised values such as
`"disabled"` — leaves negotiation to the driver (`ssl = None`). -/
theorem pool_config_and_transport_mode :
    ∀ (st : PgPoolState) (cid : String) (cred : PgCredential),
      st.pools.lookup cid = none →
      PostgresPoolManager.get_pool true st cid cred
          = Except.ok ((st.next_handle, create_pool cred),
              ⟨st.pools ++ [(cid, (st.next_handle, create_pool cred))],
                st.next_handle + 1, st.constructions + 1⟩)
        ∧ (create_pool cred).min_size = 1
        ∧ (create_pool cred).max_size = 5
        ∧ (create_pool cred).command_timeout = 60
        ∧ (cred.ssl_mode = "disable" →
            (create_pool cred).ssl = SslSetting.bool false)
        ∧ (cred.ssl_mode = "require" ∨ cred.ssl_mode = "verify-ca"
              ∨ cred.ssl_mode = "verify-full" →
            (create_pool cred).ssl = SslSetting.str "require")
        ∧ (cred.ssl_mode ≠ "disable" ∧ cred.ssl_mode ≠ "require"
              ∧ cred.ssl_mode ≠ "verify-ca" ∧ cred.ssl_mode ≠ "verify-full" →
            (create_pool cred).ssl = SslSetting.default) := by
  intro st cid cred h
  refine ⟨?_, rfl, rfl, rfl, ?_, ?_, ?_⟩
  · unfold PostgresPoolManager.get_pool
    rw [h]
    rfl
  · intro hmode
    simp [create_pool, build_ssl, hmode]
  · intro hmode
    rcases hmode with hm | hm | hm <;> simp [create_pool, build_ssl, hm]
  · intro hmode
    obtain ⟨h1, h2, h3, h4⟩ := hmode
    simp [create_pool, build_ssl, h1, h2, h3, h4]

/-- Witness for C9 amended: a fresh pool for a `"require"` credential on the
empty manager state. -/
theorem pool_config_and_transport_mode_witness :
    PostgresPoolManager.get_pool true ⟨[], 0, 0⟩ "c1"
        ⟨"h", 5432, "d", "u", "p", "require"⟩
        = Except.ok ((0, create_pool ⟨"h", 5432, "d", "u", "p", "require"⟩),
            ⟨[("c1", (0, create_pool ⟨"h", 5432, "d", "u", "p", "require"⟩))],
              1, 1⟩)
      ∧ (create_pool ⟨"h", 5432, "d", "u", "p", "require"⟩).ssl
          = SslSetting.str "require" :=
  ⟨by simpa using (pool_config_and_transport_mode ⟨[], 0, 0⟩ "c1"
      ⟨"h", 5432, "d", "u", "p", "require"⟩ rfl).1,
   (pool_config_and_transport_mode ⟨[], 0, 0⟩ "c1"
      ⟨"h", 5432, "d", "u", "p", "require"⟩ rfl).2.2.2.2.2.1 (Or.inl rfl)⟩

/-- C10: in both flavors, whenever `test_connection` returns a value instead
of raising, that value is `true`; `false` is never returned, so every failure
is reported only via a raised exception. -/
theorem test_connection_returns_only_true :
    (∀ (connect_ok close_ok : Bool) (cred : PgCredential) (r : Bool),
        PostgresPoolManager.test_connection connect_ok close_ok cred
            = Except.ok r → r = true)
    ∧ (∀ (construct_ok execute_ok close_ok r : Bool),
        SnowflakeConnectionManager.test_connection construct_ok execute_ok
            close_ok = Except.ok r → r = true) := by
  constructor
  · intro a b cred r h
    cases a <;> cases b <;>
      simp_all [PostgresPoolManager.test_connection]
  · intro a b c r h
    cases a <;> cases b <;> cases c <;>
      simp_all [SnowflakeConnectionManager.test_connection]

/-- Witness for C10: the all-success run of each flavor's connectivity test
returns `true`. -/
theorem test_connection_returns_only_true_witness :
    (PostgresPoolManager.test_connection true true
          ⟨"h", 5432, "d", "u", "p", "prefer"⟩ = Except.ok true
      ∧ true = true)
    ∧ (SnowflakeConnectionManager.test_connection true true true
          = Except.ok true
      ∧ true = true) :=
  ⟨⟨rfl, test_connection_returns_only_true.1 true true
      ⟨"h", 5432, "d", "u", "p", "prefer"⟩ true rfl⟩,
   ⟨rfl, test_connection_returns_only_true.2 true true true true rfl⟩⟩

end Squill
